import Mathlib

/-!
Shallow embedding of the LC-3 emulator core (register file, instruction
decode, and the two execution engines in vm.rs and cpu.rs).  Machine words
are modelled as `Nat` values kept below 2^16; Rust `wrapping_add` becomes
addition followed by `% 65536`, and the unchecked integer operations that
can overflow at runtime (`value + 1` in `Register::incr`, the shift in
`sign_extend` for widths of 16 or more) are modelled as partial: an
operation that would overflow yields the `panic` outcome.
-/

set_option maxHeartbeats 1000000

namespace LC3

/-- Register names, from the enum `R` in register.rs: eight general
registers, the program counter and the processor status word. -/
inductive R where
  | R0 | R1 | R2 | R3 | R4 | R5 | R6 | R7 | PC | PSR
deriving DecidableEq

/-- Structured form of the `String` errors produced by the source. -/
inductive Err where
  | regIndexOutOfBound (val : Nat)
  | wrongFlag (val : Nat)
  | wrongMode (val : Nat)
  | unknownOpcode (val : Nat)
  | reservedOpcode
  | illegalRTI
deriving DecidableEq

/-- `impl TryFrom<u16> for R` in register.rs: indices 0 to 9 name the ten
registers, anything else is the out-of-bound error. -/
def R.tryFrom (val : Nat) : Except Err R :=
  match val with
  | 0 => .ok .R0
  | 1 => .ok .R1
  | 2 => .ok .R2
  | 3 => .ok .R3
  | 4 => .ok .R4
  | 5 => .ok .R5
  | 6 => .ok .R6
  | 7 => .ok .R7
  | 8 => .ok .PC
  | 9 => .ok .PSR
  | v => .error (.regIndexOutOfBound v)

/-- Condition-code flag, from the enum `Flag` in register.rs. -/
inductive Flag where
  | Positive | Zero | Negative
deriving DecidableEq

/-- The numeric discriminants of `Flag` (1, 2, 4). -/
def Flag.toNat : Flag → Nat
  | .Positive => 1
  | .Zero => 2
  | .Negative => 4

/-- `impl TryFrom<u16> for Flag`: keep the low three bits and decode. -/
def Flag.tryFrom (val : Nat) : Except Err Flag :=
  match val &&& 7 with
  | 1 => .ok .Positive
  | 2 => .ok .Zero
  | 4 => .ok .Negative
  | v => .error (.wrongFlag v)

/-- Execution mode, from the enum `Mode` in register.rs. -/
inductive Mode where
  | Privilege | User
deriving DecidableEq

/-- `impl TryFrom<u16> for Mode`: shifts its argument right by 15 before
decoding (the caller `get_mode` has already shifted once). -/
def Mode.tryFrom (val : Nat) : Except Err Mode :=
  match val >>> 15 with
  | 0 => .ok .Privilege
  | 1 => .ok .User
  | v => .error (.wrongMode v)

/-- `bit` from lib.rs: extract the bit at position `nth`. -/
def bit (args nth : Nat) : Nat :=
  (args >>> nth) &&& 0x1

/-- `sign_extend` from lib.rs.  The Rust body computes
`x | 0xffff << bitcount` as u16 arithmetic when the sign bit is set;
`bitcount - 1` underflows for a zero width, and the shift overflows for
widths of 16 or more, so those cases are partial (`none`). -/
def sign_extend (x bitcount : Nat) : Option Nat :=
  if bitcount = 0 then none
  else if bit x (bitcount - 1) = 1 then
    if bitcount < 16 then some (x ||| ((0xffff <<< bitcount) &&& 0xffff))
    else none
  else some x

/-- `reg_1st` from lib.rs: register selector in bits 11-9. -/
def reg_1st (instr : Nat) : Except Err R :=
  R.tryFrom ((instr >>> 9) &&& 0x7)

/-- `reg_2nd` from lib.rs: register selector in bits 8-6. -/
def reg_2nd (instr : Nat) : Except Err R :=
  R.tryFrom ((instr >>> 6) &&& 0x7)

/-- The register file: the `Register([u16; 10])` array, as a total map
from register names to word values. -/
def Register := R → Nat

/-- `Register::new`: all ten slots zero. -/
def Register.new : Register := fun _ => 0

/-- `Register::write`. -/
def Register.write (reg : Register) (r : R) (val : Nat) : Register :=
  fun x => if x = r then val else reg x

/-- `Register::read`. -/
def Register.read (reg : Register) (r : R) : Nat := reg r

/-- `Register::incr`: unchecked `self.read(r) + 1`; panics (yields `none`)
when the increment leaves the 16-bit range. -/
def Register.incr (reg : Register) (r : R) : Option Register :=
  if reg.read r + 1 < 65536 then some (reg.write r (reg.read r + 1)) else none

/-- `Register::read_incr`: read the current value, then increment. -/
def Register.read_incr (reg : Register) (r : R) : Option (Nat × Register) :=
  match reg.incr r with
  | some reg2 => some (reg.read r, reg2)
  | none => none

/-- `Register::set_flag`: clear the low three PSR bits and install the
flag's discriminant. -/
def Register.set_flag (reg : Register) (f : Flag) : Register :=
  reg.write R.PSR ((reg.read R.PSR &&& 0xfff8) ||| f.toNat)

/-- `Register::update_flag`: recompute the condition code from the named
register (zero, negative if bit 15 is set, else positive). -/
def Register.update_flag (reg : Register) (r : R) : Register :=
  if reg r = 0 then reg.set_flag Flag.Zero
  else if reg r >>> 15 = 1 then reg.set_flag Flag.Negative
  else reg.set_flag Flag.Positive

/-- `Register::get_flag`. -/
def Register.get_flag (reg : Register) : Except Err Flag :=
  Flag.tryFrom (reg.read R.PSR &&& 7)

/-- `Register::get_mode`: note the source shifts the PSR right by 15 here
and `Mode::try_from` shifts by 15 again. -/
def Register.get_mode (reg : Register) : Except Err Mode :=
  Mode.tryFrom (reg.read R.PSR >>> 15)

/-- The sixteen opcodes, from the enum `OpCode` in vm.rs / cpu.rs. -/
inductive OpCode where
  | BR | ADD | LD | ST | JSR | AND | LDR | STR
  | RTI | NOT | LDI | STI | JMP | RES | LEA | TRAP
deriving DecidableEq

/-- `impl TryFrom<u16> for OpCode`: numeric codes 0 to 15. -/
def OpCode.tryFrom (val : Nat) : Except Err OpCode :=
  match val with
  | 0 => .ok .BR
  | 1 => .ok .ADD
  | 2 => .ok .LD
  | 3 => .ok .ST
  | 4 => .ok .JSR
  | 5 => .ok .AND
  | 6 => .ok .LDR
  | 7 => .ok .STR
  | 8 => .ok .RTI
  | 9 => .ok .NOT
  | 10 => .ok .LDI
  | 11 => .ok .STI
  | 12 => .ok .JMP
  | 13 => .ok .RES
  | 14 => .ok .LEA
  | 15 => .ok .TRAP
  | v => .error (.unknownOpcode v)

/-- Outcome of a fallible, possibly panicking state transformation: the
Rust `Result<(), String>` together with the mutated-in-place state, plus a
`panic` outcome for unchecked arithmetic overflow. -/
inductive Res (σ : Type) where
  | ok : σ → Res σ
  | err : Err → σ → Res σ
  | panic : Res σ

/-- u16 `wrapping_add`. -/
def wrapping_add (a b : Nat) : Nat := (a + b) % 65536

/-- The `VM` struct in vm.rs: flat memory, register file, running flag. -/
structure VM where
  memory : Nat → Nat
  register : Register
  running : Bool

/-- `VM::read_memory`. -/
def VM.read_memory (vm : VM) (addr : Nat) : Nat := vm.memory addr

/-- `VM::write_memory`. -/
def VM.write_memory (vm : VM) (addr : Nat) (val : Nat) : VM :=
  { vm with memory := fun a => if a = addr then val else vm.memory a }

/-- `VM::abort`. -/
def VM.abort (vm : VM) : VM := { vm with running := false }

/-- `VM::mnemonic_br`.  Note the source masks the offset field with `0x9`
before sign extension. -/
def VM.mnemonic_br (vm : VM) (args : Nat) : Res VM :=
  match sign_extend (args &&& 0x9) 9 with
  | none => .panic
  | some offset =>
    let nzp := (args >>> 9) &&& 0x7
    if nzp = 0 then
      .ok { vm with register :=
              vm.register.write R.PC (wrapping_add (vm.register.read R.PC) offset) }
    else
      match vm.register.get_flag with
      | .error e => .err e vm
      | .ok flag =>
        if (bit args 11 = 1 ∧ flag = Flag.Negative)
            ∨ (bit args 10 = 1 ∧ flag = Flag.Zero)
            ∨ (bit args 9 = 1 ∧ flag = Flag.Positive) then
          .ok { vm with register :=
                  vm.register.write R.PC (wrapping_add (vm.register.read R.PC) offset) }
        else
          .ok vm

/-- `VM::mnemonic_imm5_or_sr2`, the shared ADD/AND routine. -/
def VM.mnemonic_imm5_or_sr2 (vm : VM) (args : Nat) (func : Nat → Nat → Nat) : Res VM :=
  match reg_1st args with
  | .error e => .err e vm
  | .ok r0 =>
    match reg_2nd args with
    | .error e => .err e vm
    | .ok r1 =>
      if bit args 5 = 1 then
        match sign_extend (args &&& 0x1f) 5 with
        | none => .panic
        | some imm =>
          let vm2 := { vm with register :=
                        vm.register.write r0 (func (vm.register.read r1) imm) }
          .ok { vm2 with register := vm2.register.update_flag r0 }
      else
        match R.tryFrom (args &&& 0x7) with
        | .error e => .err e vm
        | .ok r2 =>
          let vm2 := { vm with register :=
                        (vm.register.write r0
                          (func (vm.register.read r1) (vm.register.read r2))) }
          .ok { vm2 with register := vm2.register.update_flag r0 }

/-- `VM::mnemonic_add`. -/
def VM.mnemonic_add (vm : VM) (args : Nat) : Res VM :=
  vm.mnemonic_imm5_or_sr2 args (fun r1 r2 => wrapping_add r1 r2)

/-- `VM::mnemonic_and`. -/
def VM.mnemonic_and (vm : VM) (args : Nat) : Res VM :=
  vm.mnemonic_imm5_or_sr2 args (fun r1 r2 => r1 &&& r2)

/-- `VM::mnemonic_ldi`. -/
def VM.mnemonic_ldi (vm : VM) (args : Nat) : Res VM :=
  match reg_1st args with
  | .error e => .err e vm
  | .ok r0 =>
    match sign_extend (args &&& 0x1ff) 9 with
    | none => .panic
    | some pc_offset =>
      let vm2 := { vm with register :=
                    (vm.register.write r0
                      (vm.read_memory (vm.read_memory
                        (wrapping_add (vm.register.read R.PC) pc_offset)))) }
      .ok { vm2 with register := vm2.register.update_flag r0 }

/-- `VM::mnemonic_ld`. -/
def VM.mnemonic_ld (vm : VM) (args : Nat) : Res VM :=
  match reg_1st args with
  | .error e => .err e vm
  | .ok r0 =>
    match sign_extend (args &&& 0x01ff) 9 with
    | none => .panic
    | some offset =>
      let vm2 := { vm with register :=
                    (vm.register.write r0
                      (vm.read_memory (wrapping_add (vm.register.read R.PC) offset))) }
      .ok { vm2 with register := vm2.register.update_flag r0 }

/-- `VM::mnemonic_st`. -/
def VM.mnemonic_st (vm : VM) (args : Nat) : Res VM :=
  match reg_1st args with
  | .error e => .err e vm
  | .ok r0 =>
    match sign_extend (args &&& 0x01ff) 9 with
    | none => .panic
    | some offset =>
      .ok (vm.write_memory (wrapping_add (vm.register.read R.PC) offset)
            (vm.register.read r0))

/-- `VM::mnemonic_res`: the reserved opcode always fails. -/
def VM.mnemonic_res (vm : VM) (_args : Nat) : Res VM :=
  .err Err.reservedOpcode vm

/-- `VM::mnemonic_jsr`. -/
def VM.mnemonic_jsr (vm : VM) (args : Nat) : Res VM :=
  let vm2 := { vm with register := vm.register.write R.R7 (vm.register.read R.PC) }
  if bit args 11 = 1 then
    match sign_extend (args &&& 0x07ff) 11 with
    | none => .panic
    | some offset =>
      .ok { vm2 with register :=
              vm2.register.write R.PC (wrapping_add (vm2.register.read R.PC) offset) }
  else
    match reg_2nd args with
    | .error e => .err e vm2
    | .ok r0 =>
      .ok { vm2 with register := vm2.register.write R.PC (vm2.register.read r0) }

/-- `VM::mnemonic_ldr`. -/
def VM.mnemonic_ldr (vm : VM) (args : Nat) : Res VM :=
  match reg_1st args with
  | .error e => .err e vm
  | .ok r0 =>
    match reg_2nd args with
    | .error e => .err e vm
    | .ok r1 =>
      match sign_extend (args &&& 0x3f) 6 with
      | none => .panic
      | some offset =>
        let vm2 := { vm with register :=
                      (vm.register.write r0
                        (vm.read_memory (wrapping_add (vm.register.read r1) offset))) }
        .ok { vm2 with register := vm2.register.update_flag r0 }

/-- `VM::mnemonic_str`. -/
def VM.mnemonic_str (vm : VM) (args : Nat) : Res VM :=
  match reg_1st args with
  | .error e => .err e vm
  | .ok r0 =>
    match reg_2nd args with
    | .error e => .err e vm
    | .ok r1 =>
      match sign_extend (args &&& 0x01ff) 9 with
      | none => .panic
      | some offset =>
        .ok (vm.write_memory (wrapping_add (vm.register.read r1) offset)
              (vm.register.read r0))

/-- `VM::mnemonic_rti`. -/
def VM.mnemonic_rti (vm : VM) (_args : Nat) : Res VM :=
  match vm.register.get_mode with
  | .error e => .err e vm
  | .ok m =>
    if m = Mode.Privilege then
      match vm.register.read_incr R.R6 with
      | none => .panic
      | some (addr, reg2) =>
        let vm2 := { vm with register := reg2.write R.PC (vm.read_memory addr) }
        match vm2.register.read_incr R.R6 with
        | none => .panic
        | some (addr2, reg3) =>
          .ok { vm2 with register := reg3.write R.PSR (vm2.read_memory addr2) }
    else
      .err Err.illegalRTI vm.abort

/-- `VM::mnemonic_not`.  Rust `!x` on u16 flips all sixteen bits. -/
def VM.mnemonic_not (vm : VM) (args : Nat) : Res VM :=
  match reg_1st args with
  | .error e => .err e vm
  | .ok r0 =>
    match reg_2nd args with
    | .error e => .err e vm
    | .ok r1 =>
      let vm2 := { vm with register :=
                    vm.register.write r0 (vm.register.read r1 ^^^ 0xffff) }
      .ok { vm2 with register := vm2.register.update_flag r0 }

/-- `VM::mnemonic_sti`. -/
def VM.mnemonic_sti (vm : VM) (args : Nat) : Res VM :=
  match reg_1st args with
  | .error e => .err e vm
  | .ok r0 =>
    match sign_extend (args &&& 0x1ff) 9 with
    | none => .panic
    | some offset =>
      .ok (vm.write_memory
            (vm.read_memory (wrapping_add (vm.register.read R.PC) offset))
            (vm.register.read r0))

/-- `VM::mnemonic_jmp`. -/
def VM.mnemonic_jmp (vm : VM) (args : Nat) : Res VM :=
  match reg_2nd args with
  | .error e => .err e vm
  | .ok r0 =>
    .ok { vm with register := vm.register.write R.PC (vm.register.read r0) }

/-- `VM::mnemonic_lea`. -/
def VM.mnemonic_lea (vm : VM) (args : Nat) : Res VM :=
  match reg_1st args with
  | .error e => .err e vm
  | .ok r0 =>
    match sign_extend (args &&& 0x01ff) 9 with
    | none => .panic
    | some offset =>
      let vm2 := { vm with register :=
                    vm.register.write r0 (wrapping_add (vm.register.read R.PC) offset) }
      .ok { vm2 with register := vm2.register.update_flag r0 }

/-- `VM::mnemonic_trap`. -/
def VM.mnemonic_trap (vm : VM) (args : Nat) : Res VM :=
  let vm2 := { vm with register := vm.register.write R.R7 (vm.register.read R.PC) }
  .ok { vm2 with register := vm2.register.write R.PC (vm2.read_memory (args &&& 0x00ff)) }

/-- `VM::next`: fetch at the program counter (advancing it), decode the
top nibble, dispatch. -/
def VM.next (vm : VM) : Res VM :=
  match vm.register.read_incr R.PC with
  | none => .panic
  | some (boot_addr, reg2) =>
    let vm2 := { vm with register := reg2 }
    let instr := vm2.read_memory boot_addr
    match OpCode.tryFrom (instr >>> 12) with
    | .error e => .err e vm2
    | .ok opcode =>
      match opcode with
      | .BR => vm2.mnemonic_br instr
      | .ADD => vm2.mnemonic_add instr
      | .LD => vm2.mnemonic_ld instr
      | .ST => vm2.mnemonic_st instr
      | .JSR => vm2.mnemonic_jsr instr
      | .AND => vm2.mnemonic_and instr
      | .LDR => vm2.mnemonic_ldr instr
      | .STR => vm2.mnemonic_str instr
      | .RTI => vm2.mnemonic_rti instr
      | .NOT => vm2.mnemonic_not instr
      | .LDI => vm2.mnemonic_ldi instr
      | .STI => vm2.mnemonic_sti instr
      | .JMP => vm2.mnemonic_jmp instr
      | .RES => vm2.mnemonic_res instr
      | .LEA => vm2.mnemonic_lea instr
      | .TRAP => vm2.mnemonic_trap instr

/-- The `CPU` struct in cpu.rs: register file and flat memory. -/
structure CPU where
  register : Register
  memory : Nat → Nat

/-- `CPU::mem_read`. -/
def CPU.mem_read (cpu : CPU) (addr : Nat) : Nat := cpu.memory addr

/-- `CPU::mem_write`. -/
def CPU.mem_write (cpu : CPU) (addr : Nat) (val : Nat) : CPU :=
  { cpu with memory := fun a => if a = addr then val else cpu.memory a }

/-- `CPU::mnemonic_br` (same body as the VM version). -/
def CPU.mnemonic_br (cpu : CPU) (args : Nat) : Res CPU :=
  match sign_extend (args &&& 0x9) 9 with
  | none => .panic
  | some offset =>
    let nzp := (args >>> 9) &&& 0x7
    if nzp = 0 then
      .ok { cpu with register :=
              cpu.register.write R.PC (wrapping_add (cpu.register.read R.PC) offset) }
    else
      match cpu.register.get_flag with
      | .error e => .err e cpu
      | .ok flag =>
        if (bit args 11 = 1 ∧ flag = Flag.Negative)
            ∨ (bit args 10 = 1 ∧ flag = Flag.Zero)
            ∨ (bit args 9 = 1 ∧ flag = Flag.Positive) then
          .ok { cpu with register :=
                  cpu.register.write R.PC (wrapping_add (cpu.register.read R.PC) offset) }
        else
          .ok cpu

/-- `CPU::mnemonic_imm5_or_sr2`. -/
def CPU.mnemonic_imm5_or_sr2 (cpu : CPU) (args : Nat) (func : Nat → Nat → Nat) : Res CPU :=
  match reg_1st args with
  | .error e => .err e cpu
  | .ok r0 =>
    match reg_2nd args with
    | .error e => .err e cpu
    | .ok r1 =>
      if bit args 5 = 1 then
        match sign_extend (args &&& 0x1f) 5 with
        | none => .panic
        | some imm =>
          let cpu2 := { cpu with register :=
                        (cpu.register.write r0 (func (cpu.register.read r1) imm)) }
          .ok { cpu2 with register := cpu2.register.update_flag r0 }
      else
        match R.tryFrom (args &&& 0x7) with
        | .error e => .err e cpu
        | .ok r2 =>
          let cpu2 := { cpu with register :=
                        (cpu.register.write r0
                          (func (cpu.register.read r1) (cpu.register.read r2))) }
          .ok { cpu2 with register := cpu2.register.update_flag r0 }

/-- `CPU::mnemonic_add`. -/
def CPU.mnemonic_add (cpu : CPU) (args : Nat) : Res CPU :=
  cpu.mnemonic_imm5_or_sr2 args (fun r1 r2 => wrapping_add r1 r2)

/-- `CPU::mnemonic_and`. -/
def CPU.mnemonic_and (cpu : CPU) (args : Nat) : Res CPU :=
  cpu.mnemonic_imm5_or_sr2 args (fun r1 r2 => r1 &&& r2)

/-- `CPU::mnemonic_ldi`. -/
def CPU.mnemonic_ldi (cpu : CPU) (args : Nat) : Res CPU :=
  match reg_1st args with
  | .error e => .err e cpu
  | .ok r0 =>
    match sign_extend (args &&& 0x1ff) 9 with
    | none => .panic
    | some pc_offset =>
      let cpu2 := { cpu with register :=
                    (cpu.register.write r0
                      (cpu.mem_read (cpu.mem_read
                        (wrapping_add (cpu.register.read R.PC) pc_offset)))) }
      .ok { cpu2 with register := cpu2.register.update_flag r0 }

/-- `CPU::mnemonic_ld`. -/
def CPU.mnemonic_ld (cpu : CPU) (args : Nat) : Res CPU :=
  match reg_1st args with
  | .error e => .err e cpu
  | .ok r0 =>
    match sign_extend (args &&& 0x01ff) 9 with
    | none => .panic
    | some offset =>
      let cpu2 := { cpu with register :=
                    (cpu.register.write r0
                      (cpu.mem_read (wrapping_add (cpu.register.read R.PC) offset))) }
      .ok { cpu2 with register := cpu2.register.update_flag r0 }

/-- `CPU::mnemonic_st`. -/
def CPU.mnemonic_st (cpu : CPU) (args : Nat) : Res CPU :=
  match reg_1st args with
  | .error e => .err e cpu
  | .ok r0 =>
    match sign_extend (args &&& 0x01ff) 9 with
    | none => .panic
    | some offset =>
      .ok (cpu.mem_write (wrapping_add (cpu.register.read R.PC) offset)
            (cpu.register.read r0))

/-- `CPU::mnemonic_res`. -/
def CPU.mnemonic_res (cpu : CPU) (_args : Nat) : Res CPU :=
  .err Err.reservedOpcode cpu

/-- `CPU::mnemonic_jsr`. -/
def CPU.mnemonic_jsr (cpu : CPU) (args : Nat) : Res CPU :=
  let cpu2 := { cpu with register := cpu.register.write R.R7 (cpu.register.read R.PC) }
  if bit args 11 = 1 then
    match sign_extend (args &&& 0x07ff) 11 with
    | none => .panic
    | some offset =>
      .ok { cpu2 with register :=
              cpu2.register.write R.PC (wrapping_add (cpu2.register.read R.PC) offset) }
  else
    match reg_2nd args with
    | .error e => .err e cpu2
    | .ok r0 =>
      .ok { cpu2 with register := cpu2.register.write R.PC (cpu2.register.read r0) }

/-- `CPU::mnemonic_ldr`. -/
def CPU.mnemonic_ldr (cpu : CPU) (args : Nat) : Res CPU :=
  match reg_1st args with
  | .error e => .err e cpu
  | .ok r0 =>
    match reg_2nd args with
    | .error e => .err e cpu
    | .ok r1 =>
      match sign_extend (args &&& 0x3f) 6 with
      | none => .panic
      | some offset =>
        let cpu2 := { cpu with register :=
                      (cpu.register.write r0
                        (cpu.mem_read (wrapping_add (cpu.register.read r1) offset))) }
        .ok { cpu2 with register := cpu2.register.update_flag r0 }

/-- `CPU::mnemonic_str`. -/
def CPU.mnemonic_str (cpu : CPU) (args : Nat) : Res CPU :=
  match reg_1st args with
  | .error e => .err e cpu
  | .ok r0 =>
    match reg_2nd args with
    | .error e => .err e cpu
    | .ok r1 =>
      match sign_extend (args &&& 0x01ff) 9 with
      | none => .panic
      | some offset =>
        .ok (cpu.mem_write (wrapping_add (cpu.register.read r1) offset)
              (cpu.register.read r0))

/-- `CPU::mnemonic_rti` (no abort call; otherwise the VM body). -/
def CPU.mnemonic_rti (cpu : CPU) (_args : Nat) : Res CPU :=
  match cpu.register.get_mode with
  | .error e => .err e cpu
  | .ok m =>
    if m = Mode.Privilege then
      match cpu.register.read_incr R.R6 with
      | none => .panic
      | some (addr, reg2) =>
        let cpu2 := { cpu with register := reg2.write R.PC (cpu.mem_read addr) }
        match cpu2.register.read_incr R.R6 with
        | none => .panic
        | some (addr2, reg3) =>
          .ok { cpu2 with register := reg3.write R.PSR (cpu2.mem_read addr2) }
    else
      .err Err.illegalRTI cpu

/-- `CPU::mnemonic_not`. -/
def CPU.mnemonic_not (cpu : CPU) (args : Nat) : Res CPU :=
  match reg_1st args with
  | .error e => .err e cpu
  | .ok r0 =>
    match reg_2nd args with
    | .error e => .err e cpu
    | .ok r1 =>
      let cpu2 := { cpu with register :=
                    (cpu.register.write r0 (cpu.register.read r1 ^^^ 0xffff)) }
      .ok { cpu2 with register := cpu2.register.update_flag r0 }

/-- `CPU::mnemonic_sti`. -/
def CPU.mnemonic_sti (cpu : CPU) (args : Nat) : Res CPU :=
  match reg_1st args with
  | .error e => .err e cpu
  | .ok r0 =>
    match sign_extend (args &&& 0x1ff) 9 with
    | none => .panic
    | some offset =>
      .ok (cpu.mem_write
            (cpu.mem_read (wrapping_add (cpu.register.read R.PC) offset))
            (cpu.register.read r0))

/-- `CPU::mnemonic_jmp`. -/
def CPU.mnemonic_jmp (cpu : CPU) (args : Nat) : Res CPU :=
  match reg_2nd args with
  | .error e => .err e cpu
  | .ok r0 =>
    .ok { cpu with register := cpu.register.write R.PC (cpu.register.read r0) }

/-- `CPU::mnemonic_lea`. -/
def CPU.mnemonic_lea (cpu : CPU) (args : Nat) : Res CPU :=
  match reg_1st args with
  | .error e => .err e cpu
  | .ok r0 =>
    match sign_extend (args &&& 0x01ff) 9 with
    | none => .panic
    | some offset =>
      let cpu2 := { cpu with register :=
                    (cpu.register.write r0 (wrapping_add (cpu.register.read R.PC) offset)) }
      .ok { cpu2 with register := cpu2.register.update_flag r0 }

/-- `CPU::mnemonic_trap`. -/
def CPU.mnemonic_trap (cpu : CPU) (args : Nat) : Res CPU :=
  let cpu2 := { cpu with register := cpu.register.write R.R7 (cpu.register.read R.PC) }
  .ok { cpu2 with register := cpu2.register.write R.PC (cpu2.mem_read (args &&& 0x00ff)) }

/-- `CPU::tick`: the fetch-decode-dispatch cycle of cpu.rs. -/
def CPU.tick (cpu : CPU) : Res CPU :=
  match cpu.register.read_incr R.PC with
  | none => .panic
  | some (boot_addr, reg2) =>
    let cpu2 := { cpu with register := reg2 }
    let instr := cpu2.mem_read boot_addr
    match OpCode.tryFrom (instr >>> 12) with
    | .error e => .err e cpu2
    | .ok opcode =>
      match opcode with
      | .BR => cpu2.mnemonic_br instr
      | .ADD => cpu2.mnemonic_add instr
      | .LD => cpu2.mnemonic_ld instr
      | .ST => cpu2.mnemonic_st instr
      | .JSR => cpu2.mnemonic_jsr instr
      | .AND => cpu2.mnemonic_and instr
      | .LDR => cpu2.mnemonic_ldr instr
      | .STR => cpu2.mnemonic_str instr
      | .RTI => cpu2.mnemonic_rti instr
      | .NOT => cpu2.mnemonic_not instr
      | .LDI => cpu2.mnemonic_ldi instr
      | .STI => cpu2.mnemonic_sti instr
      | .JMP => cpu2.mnemonic_jmp instr
      | .RES => cpu2.mnemonic_res instr
      | .LEA => cpu2.mnemonic_lea instr
      | .TRAP => cpu2.mnemonic_trap instr

/-! ## Helper lemmas -/

theorem read_write_same (reg : Register) (r : R) (v : Nat) :
    (reg.write r v).read r = v := by
  simp [Register.read, Register.write]

theorem read_write_ne (reg : Register) (r x : R) (v : Nat) (h : x ≠ r) :
    (reg.write r v).read x = reg.read x := by
  simp [Register.read, Register.write, h]

theorem set_flag_read_psr (reg : Register) (f : Flag) :
    (reg.set_flag f).read R.PSR = ((reg.read R.PSR &&& 0xfff8) ||| f.toNat) := by
  simp [Register.set_flag, read_write_same]

theorem bit_as_testBit (x n : Nat) : bit x n = (x.testBit n).toNat := by
  rw [bit, Nat.and_one_is_mod, Nat.shiftRight_eq_div_pow]
  exact (Nat.toNat_testBit x n).symm

/-- Name for an index in the closed 3-bit general-register selector space. -/
def reg_of (n : Nat) : R :=
  match n % 8 with
  | 0 => .R0
  | 1 => .R1
  | 2 => .R2
  | 3 => .R3
  | 4 => .R4
  | 5 => .R5
  | 6 => .R6
  | _ => .R7

theorem tryFrom_reg_of {n : Nat} (h : n < 8) : R.tryFrom n = .ok (reg_of n) := by
  interval_cases n <;> rfl

/-- The mask the spec describes: all bits from position `n` upward within
the 16-bit word. -/
def sext_claim (x n : Nat) : Nat :=
  if bit x (n - 1) = 1 then x ||| (65536 - 2 ^ n) else x

theorem sign_extend_small (x n : Nat) (h1 : 1 ≤ n) (h2 : n ≤ 15) :
    sign_extend x n = some (sext_claim x n) := by
  have hm : ∀ c : Nat, c &&& 65535 = c % 65536 := by
    intro c
    have h1 : (65535 : Nat) = 2 ^ 16 - 1 := by norm_num
    have h2 : (65536 : Nat) = 2 ^ 16 := by norm_num
    rw [h1, h2, Nat.and_pow_two_sub_one_eq_mod]
  interval_cases n <;> simp [sign_extend, sext_claim, hm] <;> split <;> rfl

/-- Exactly one of the three condition-code bits of a PSR value is set. -/
def one_flag_set (psr : Nat) : Prop :=
  bit psr 0 + bit psr 1 + bit psr 2 = 1

theorem flag_low_bits_of_set_flag (reg : Register) (f : Flag) :
    (reg.set_flag f).read R.PSR &&& 7 = f.toNat := by
  rw [set_flag_read_psr, Nat.and_distrib_right, Nat.and_assoc]
  have h1 : (0xfff8 &&& 7 : Nat) = 0 := by decide
  have h2 : f.toNat &&& 7 = f.toNat := by cases f <;> decide
  rw [h1, Nat.and_zero, h2, Nat.zero_or]

theorem one_flag_set_of_and7 {psr t : Nat} (h : psr &&& 7 = t)
    (ht : t = 1 ∨ t = 2 ∨ t = 4) : one_flag_set psr := by
  have hb : ∀ k, k < 3 → bit psr k = bit t k := by
    intro k hk
    rw [← h, bit_as_testBit, bit_as_testBit, Nat.testBit_and]
    have h7 : Nat.testBit 7 k = true := by interval_cases k <;> decide
    simp [h7]
  unfold one_flag_set
  rw [hb 0 (by norm_num), hb 1 (by norm_num), hb 2 (by norm_num)]
  rcases ht with h | h | h <;> subst h <;> decide

theorem one_flag_set_set_flag (reg : Register) (f : Flag) :
    one_flag_set ((reg.set_flag f).read R.PSR) := by
  refine one_flag_set_of_and7 (flag_low_bits_of_set_flag reg f) ?_
  cases f <;> simp [Flag.toNat]

theorem one_flag_set_update_flag (reg : Register) (r : R) :
    one_flag_set ((reg.update_flag r).read R.PSR) := by
  unfold Register.update_flag
  split
  · exact one_flag_set_set_flag reg Flag.Zero
  split
  · exact one_flag_set_set_flag reg Flag.Negative
  · exact one_flag_set_set_flag reg Flag.Positive

/-! ## Claims -/

/-- C2 (counterexample): at construction every register slot, including
the PSR, is zero, so none of the three condition-code bits is set — the
claim that exactly one of bits 0-2 is set already after construction is
false. -/
theorem C2_counterexample : ¬ one_flag_set (Register.new.read R.PSR) := by
  unfold one_flag_set
  decide

/-- C2 (amended): after every flag-updating operation (`set_flag`,
`update_flag`) exactly one of bits 0-2 of the processor status word is 1
and the other two are 0; at construction all three of those bits are 0. -/
theorem C2_flag_invariant :
    (∀ (reg : Register) (f : Flag), one_flag_set ((reg.set_flag f).read R.PSR))
    ∧ (∀ (reg : Register) (r : R), one_flag_set ((reg.update_flag r).read R.PSR))
    ∧ bit (Register.new.read R.PSR) 0 = 0
    ∧ bit (Register.new.read R.PSR) 1 = 0
    ∧ bit (Register.new.read R.PSR) 2 = 0 :=
  ⟨one_flag_set_set_flag, one_flag_set_update_flag, rfl, rfl, rfl⟩

/-- C5 (counterexample): at width 16 with the sign bit set the code's
shift `0xffff << 16` overflows the u16 range (a panic under checked
arithmetic), so `sign_extend` does not return the value unchanged as the
claim's mask description demands for n = 16. -/
theorem C5_counterexample : sign_extend 0x8000 16 ≠ some (sext_claim 0x8000 16) := by
  decide

/-- C5 (amended): for a value occupying the low n bits with 1 <= n <= 15,
`sign_extend` ORs in the mask of all bits from position n upward exactly
when bit n-1 is set and otherwise returns the value unchanged; in
particular `sign_extend 0x1FF 9 = 0xFFFF` and
`sign_extend 0x0FF 9 = 0x00FF`. -/
theorem C5_sign_extend (x n : Nat) (_hx : x < 2 ^ n) (h1 : 1 ≤ n) (h2 : n ≤ 15) :
    sign_extend x n = some (sext_claim x n)
    ∧ sign_extend 0x1FF 9 = some 0xFFFF
    ∧ sign_extend 0x0FF 9 = some 0x00FF :=
  ⟨sign_extend_small x n h1 h2, by decide, by decide⟩

/-- C5 witness: the amended statement evaluated at x = 0x1FF, n = 9. -/
theorem C5_witness :
    sign_extend 0x1FF 9 = some (sext_claim 0x1FF 9)
    ∧ sign_extend 0x1FF 9 = some 0xFFFF
    ∧ sign_extend 0x0FF 9 = some 0x00FF :=
  C5_sign_extend 0x1FF 9 (by decide) (by decide) (by decide)

/-- C7: the unknown-opcode branch is unreachable for every fetched 16-bit
word (the top nibble always decodes), and the register-index
out-of-range branch is unreachable for every instruction word through
`reg_1st` and `reg_2nd`. -/
theorem C7_unreachable_error_branches :
    (∀ instr : Nat, instr < 65536 → ∃ op, OpCode.tryFrom (instr >>> 12) = .ok op)
    ∧ (∀ instr : Nat, ∃ r, reg_1st instr = .ok r)
    ∧ (∀ instr : Nat, ∃ r, reg_2nd instr = .ok r) := by
  refine ⟨?_, ?_, ?_⟩
  · intro instr h
    have hv : instr >>> 12 < 16 := by
      rw [Nat.shiftRight_eq_div_pow]
      have e : (2 : Nat) ^ 12 = 4096 := by norm_num
      rw [e]
      omega
    revert hv
    generalize instr >>> 12 = v
    intro hv
    interval_cases v <;> exact ⟨_, rfl⟩
  · intro instr
    have hv : (instr >>> 9) &&& 0x7 < 8 := Nat.lt_succ_of_le Nat.and_le_right
    unfold reg_1st
    revert hv
    generalize (instr >>> 9) &&& 0x7 = v
    intro hv
    interval_cases v <;> exact ⟨_, rfl⟩
  · intro instr
    have hv : (instr >>> 6) &&& 0x7 < 8 := Nat.lt_succ_of_le Nat.and_le_right
    unfold reg_2nd
    revert hv
    generalize (instr >>> 6) &&& 0x7 = v
    intro hv
    interval_cases v <;> exact ⟨_, rfl⟩

/-- C7 witness: decode succeeds at the concrete word 0xFFFF and the
register selectors succeed at concrete words. -/
theorem C7_witness :
    (∃ op, OpCode.tryFrom (65535 >>> 12) = .ok op)
    ∧ (∃ r, reg_1st 65535 = .ok r)
    ∧ (∃ r, reg_2nd 0 = .ok r) :=
  ⟨C7_unreachable_error_branches.1 65535 (by decide),
   C7_unreachable_error_branches.2.1 65535,
   C7_unreachable_error_branches.2.2 0⟩

/-- C8: `update_flag` writes only the flag sub-field: PSR bits 3-15
(hence the priority bits 7-9 and the mode bit 15) are unchanged, and
every register other than the PSR is unchanged. -/
theorem C8_update_flag_frame (reg : Register) (r : R) :
    (∀ i, 3 ≤ i → i ≤ 15 → ((reg.update_flag r).read R.PSR).testBit i
        = (reg.read R.PSR).testBit i)
    ∧ ∀ x, x ≠ R.PSR → (reg.update_flag r).read x = reg.read x := by
  have key : ∀ f : Flag,
      (∀ i, 3 ≤ i → i ≤ 15 → ((reg.set_flag f).read R.PSR).testBit i
          = (reg.read R.PSR).testBit i)
      ∧ ∀ x, x ≠ R.PSR → (reg.set_flag f).read x = reg.read x := by
    intro f
    constructor
    · intro i h3 h15
      rw [set_flag_read_psr, Nat.testBit_or, Nat.testBit_and]
      have hmask : Nat.testBit 0xfff8 i = true := by interval_cases i <;> decide
      have hflag : Nat.testBit f.toNat i = false := by
        refine Nat.testBit_lt_two_pow ?_
        have hf : f.toNat < 8 := by cases f <;> decide
        have h8 : (8 : Nat) ≤ 2 ^ i := by
          calc (8 : Nat) = 2 ^ 3 := by norm_num
          _ ≤ 2 ^ i := Nat.pow_le_pow_right (by norm_num) h3
        omega
      simp [hmask, hflag]
    · intro x hx
      exact read_write_ne _ _ _ _ hx
  unfold Register.update_flag
  split
  · exact key Flag.Zero
  split
  · exact key Flag.Negative
  · exact key Flag.Positive

/-- C8 witness: the frame condition evaluated at the fresh register file,
register R0, bit 15 and register R3. -/
theorem C8_witness :
    (((Register.new.update_flag R.R0).read R.PSR).testBit 15
        = (Register.new.read R.PSR).testBit 15)
    ∧ (Register.new.update_flag R.R0).read R.R3 = Register.new.read R.R3 :=
  ⟨(C8_update_flag_frame Register.new R.R0).1 15 (by decide) (by decide),
   (C8_update_flag_frame Register.new R.R0).2 R.R3 (by decide)⟩

/-- Second operand of the shared ALU routine as the claim describes it:
bit 5 selects a sign-extended 5-bit immediate (bits 4-0) or the register
named by bits 2-0. -/
def alu_operand2 (reg : Register) (instr : Nat) : Nat :=
  if bit instr 5 = 1 then sext_claim (instr &&& 0x1f) 5
  else reg.read (reg_of (instr &&& 0x7))

/-- Result state of an ADD/AND as the claim describes it: the destination
register is bits 11-9, source-1 is bits 8-6, the result is stored to the
destination, and the condition flag is then recomputed from the
destination. -/
def alu_claim (vm : VM) (instr : Nat) (op : Nat → Nat → Nat) : VM :=
  let dst := reg_of ((instr >>> 9) &&& 0x7)
  let src1 := reg_of ((instr >>> 6) &&& 0x7)
  { vm with register :=
      ((vm.register.write dst
          (op (vm.register.read src1) (alu_operand2 vm.register instr))).update_flag dst) }

theorem imm5_or_sr2_eq_claim (vm : VM) (instr : Nat) (op : Nat → Nat → Nat) :
    VM.mnemonic_imm5_or_sr2 vm instr op = .ok (alu_claim vm instr op) := by
  have h1 : reg_1st instr = .ok (reg_of ((instr >>> 9) &&& 0x7)) := by
    unfold reg_1st
    exact tryFrom_reg_of (Nat.lt_succ_of_le Nat.and_le_right)
  have h2 : reg_2nd instr = .ok (reg_of ((instr >>> 6) &&& 0x7)) := by
    unfold reg_2nd
    exact tryFrom_reg_of (Nat.lt_succ_of_le Nat.and_le_right)
  have h3 : R.tryFrom (instr &&& 0x7) = .ok (reg_of (instr &&& 0x7)) :=
    tryFrom_reg_of (Nat.lt_succ_of_le Nat.and_le_right)
  have h4 : sign_extend (instr &&& 0x1f) 5 = some (sext_claim (instr &&& 0x1f) 5) :=
    sign_extend_small _ 5 (by norm_num) (by norm_num)
  by_cases h5 : bit instr 5 = 1 <;>
    simp [VM.mnemonic_imm5_or_sr2, h1, h2, h3, h4, h5, alu_claim, alu_operand2]

/-- C1 (code bug, evaluation): BR masks the offset field with `0x9`
instead of `0x1ff`.  For the unconditional branch word 0x00FF
(NZP = 000, PCoffset9 = 0x0FF) from PC = 0x3000 the code adds
`sign_extend(0x00FF & 0x9, 9) = 9` and lands at 0x3009, while the
sign-extended 9-bit offset of the claim is 0x00FF, which would land at
0x30FF. -/
theorem C1_br_wrong_offset_mask :
    ∃ vm1 : VM,
      VM.mnemonic_br ⟨fun _ => 0, Register.new.write R.PC 0x3000, true⟩ 0x00FF = .ok vm1
      ∧ vm1.register.read R.PC = 0x3009
      ∧ sign_extend (0x00FF &&& 0x1ff) 9 = some 0x00FF
      ∧ wrapping_add 0x3000 0x00FF = 0x30FF := by
  refine ⟨_, rfl, ?_, ?_, ?_⟩ <;> decide

/-- C3 (code bug, evaluation): `get_mode` shifts the PSR right by 15 and
`Mode::try_from` shifts by 15 again, so the mode always decodes as
Privileged.  In a state whose PSR has the mode bit (bit 15) set — User
mode per the spec — RTI still pops PC and PSR from R6 and increments R6
twice instead of failing with the illegal-privilege-transition error and
leaving the state unmutated. -/
theorem C3_rti_user_mode_still_pops :
    ∃ vm1 : VM,
      VM.mnemonic_rti
        ⟨fun a => if a = 0x4000 then 0xAAAA else if a = 0x4001 then 0x5555 else 0,
         (Register.new.write R.PSR 0x8002).write R.R6 0x4000, true⟩ 0x8000
        = .ok vm1
      ∧ ((Register.new.write R.PSR 0x8002).write R.R6 0x4000).read R.PSR >>> 15 = 1
      ∧ vm1.register.read R.PC = 0xAAAA
      ∧ vm1.register.read R.PSR = 0x5555
      ∧ vm1.register.read R.R6 = 0x4002 := by
  refine ⟨_, rfl, ?_, ?_, ?_, ?_⟩ <;> decide

/-- C6 (counterexample): a step that decodes the RESERVED opcode reports
the reserved-opcode error but does mutate a register: the fetch has
already advanced the program counter. -/
theorem C6_counterexample :
    ∃ vm1 : VM,
      VM.next ⟨fun _ => 0xD000, Register.new, true⟩ = .err Err.reservedOpcode vm1
      ∧ vm1.register.read R.PC ≠ Register.new.read R.PC := by
  refine ⟨_, rfl, by decide⟩

/-- C6 (amended): for every state whose next word has top nibble 1101 and
whose program counter increment does not overflow, the execution step
reports the reserved-opcode error and performs no register or memory
mutation beyond the fetch's program-counter increment. -/
theorem C6_reserved_error_frame (vm : VM)
    (hpc : vm.register.read R.PC + 1 < 65536)
    (hop : vm.memory (vm.register.read R.PC) >>> 12 = 13) :
    VM.next vm = .err Err.reservedOpcode
      { vm with register := vm.register.write R.PC (vm.register.read R.PC + 1) } := by
  have hri : vm.register.read_incr R.PC
      = some (vm.register.read R.PC, vm.register.write R.PC (vm.register.read R.PC + 1)) := by
    unfold Register.read_incr Register.incr
    rw [if_pos hpc]
  unfold VM.next
  rw [hri]
  simp [VM.read_memory, hop, VM.mnemonic_res, OpCode.tryFrom]

/-- C6 witness: the amended statement evaluated at the state with all of
memory holding 0xD000 and a fresh register file. -/
theorem C6_witness :
    VM.next ⟨fun _ => 0xD000, Register.new, true⟩
      = .err Err.reservedOpcode
        ⟨fun _ => 0xD000,
         (Register.new : Register).write R.PC ((Register.new : Register).read R.PC + 1),
         true⟩ :=
  C6_reserved_error_frame ⟨fun _ => 0xD000, Register.new, true⟩ (by decide) (by decide)

/-- C4: ADD and AND decode destination from bits 11-9 and source-1 from
bits 8-6; bit 5 selects the sign-extended 5-bit immediate (bits 4-0) or
the register named by bits 2-0; the result (wrapping 16-bit addition for
ADD, bitwise AND for AND) is stored to the destination and the flag is
recomputed from the destination; with R1 = 0xFFFF and R2 = 1,
register-mode ADD into R0 yields 0x0000 and flag Zero. -/
theorem C4_add_and_semantics :
    (∀ (vm : VM) (instr : Nat),
        VM.mnemonic_add vm instr = .ok (alu_claim vm instr (fun a b => (a + b) % 65536)))
    ∧ (∀ (vm : VM) (instr : Nat),
        VM.mnemonic_and vm instr = .ok (alu_claim vm instr (fun a b => a &&& b)))
    ∧ (∃ vm1 : VM,
        VM.mnemonic_add
            ⟨fun _ => 0, (Register.new.write R.R1 0xFFFF).write R.R2 1, true⟩ 0x1042
          = .ok vm1
        ∧ vm1.register.read R.R0 = 0
        ∧ vm1.register.get_flag = .ok Flag.Zero) := by
  refine ⟨?_, ?_, ?_⟩
  · intro vm instr
    exact imm5_or_sr2_eq_claim vm instr _
  · intro vm instr
    exact imm5_or_sr2_eq_claim vm instr _
  · exact ⟨_, rfl, rfl, rfl⟩

/-- C9: the step relation is not total: the program-counter increment in
the fetch and the R6 increments of a privileged RTI use unchecked u16
addition, so from PC = 0xFFFF the step has no successor state (it
panics rather than wrapping to 0x0000), and likewise a privileged RTI
with R6 = 0xFFFF. -/
theorem C9_unchecked_increment (vm : VM) (args : Nat) :
    (vm.register.read R.PC = 0xFFFF → VM.next vm = .panic)
    ∧ (vm.register.read R.PSR < 65536 → vm.register.read R.R6 = 0xFFFF →
        VM.mnemonic_rti vm args = .panic) := by
  constructor
  · intro h
    unfold VM.next Register.read_incr Register.incr
    rw [h]
    norm_num
  · intro hpsr h6
    have e15 : (2 : Nat) ^ 15 = 32768 := by norm_num
    have hm : (vm.register.read R.PSR >>> 15) >>> 15 = 0 := by
      have h1 : vm.register.read R.PSR >>> 15 ≤ 1 := by
        rw [Nat.shiftRight_eq_div_pow, e15]
        omega
      rw [Nat.shiftRight_eq_div_pow, e15]
      omega
    unfold VM.mnemonic_rti Register.get_mode Mode.tryFrom
    rw [hm]
    unfold Register.read_incr Register.incr
    rw [h6]
    norm_num

/-- C9 witness: the panic outcomes evaluated at concrete states with
PC = 0xFFFF and R6 = 0xFFFF. -/
theorem C9_witness :
    VM.next ⟨fun _ => 0, Register.new.write R.PC 0xFFFF, true⟩ = .panic
    ∧ VM.mnemonic_rti ⟨fun _ => 0, Register.new.write R.R6 0xFFFF, true⟩ 0x8000 = .panic :=
  ⟨(C9_unchecked_increment ⟨fun _ => 0, Register.new.write R.PC 0xFFFF, true⟩ 0).1
      (by decide),
   (C9_unchecked_increment ⟨fun _ => 0, Register.new.write R.R6 0xFFFF, true⟩ 0x8000).2
      (by decide) (by decide)⟩

/-! ## Equivalence of the two engines -/

/-- Forget the running flag: project a VM state onto a CPU state. -/
def cpuOf (vm : VM) : CPU := { register := vm.register, memory := vm.memory }

/-- Map a state projection through a step outcome. -/
def Res.map {σ τ : Type} (f : σ → τ) : Res σ → Res τ
  | .ok s => .ok (f s)
  | .err e s => .err e (f s)
  | .panic => .panic
theorem cpuOf_register (vm : VM) : (cpuOf vm).register = vm.register := rfl

theorem cpuOf_memory (vm : VM) : (cpuOf vm).memory = vm.memory := rfl

theorem map_mnemonic_br (vm : VM) (args : Nat) :
    CPU.mnemonic_br (cpuOf vm) args = Res.map cpuOf (VM.mnemonic_br vm args) := by
  unfold CPU.mnemonic_br VM.mnemonic_br
  simp only [cpuOf_register, cpuOf_memory]
  cases sign_extend (args &&& 0x9) 9 with
  | none => rfl
  | some offset =>
    by_cases h0 : (args >>> 9) &&& 0x7 = 0
    · simp [h0, Res.map, cpuOf]
    · cases hf : vm.register.get_flag with
      | error e => simp [h0, hf, Res.map, cpuOf]
      | ok flag =>
        by_cases hc : (bit args 11 = 1 ∧ flag = Flag.Negative)
            ∨ (bit args 10 = 1 ∧ flag = Flag.Zero)
            ∨ (bit args 9 = 1 ∧ flag = Flag.Positive)
        · simp [h0, hf, hc, Res.map, cpuOf]
        · simp [h0, hf, hc, Res.map, cpuOf]

theorem map_mnemonic_imm5_or_sr2 (vm : VM) (args : Nat) (func : Nat → Nat → Nat) :
    CPU.mnemonic_imm5_or_sr2 (cpuOf vm) args func
      = Res.map cpuOf (VM.mnemonic_imm5_or_sr2 vm args func) := by
  unfold CPU.mnemonic_imm5_or_sr2 VM.mnemonic_imm5_or_sr2
  simp only [cpuOf_register, cpuOf_memory]
  cases reg_1st args with
  | error e => rfl
  | ok r0 =>
    cases reg_2nd args with
    | error e => rfl
    | ok r1 =>
      by_cases h5 : bit args 5 = 1
      · cases sign_extend (args &&& 0x1f) 5 <;> simp [h5, Res.map, cpuOf]
      · cases R.tryFrom (args &&& 0x7) <;> simp [h5, Res.map, cpuOf]

theorem map_mnemonic_add (vm : VM) (args : Nat) :
    CPU.mnemonic_add (cpuOf vm) args = Res.map cpuOf (VM.mnemonic_add vm args) :=
  map_mnemonic_imm5_or_sr2 vm args _

theorem map_mnemonic_and (vm : VM) (args : Nat) :
    CPU.mnemonic_and (cpuOf vm) args = Res.map cpuOf (VM.mnemonic_and vm args) :=
  map_mnemonic_imm5_or_sr2 vm args _

theorem map_mnemonic_ldi (vm : VM) (args : Nat) :
    CPU.mnemonic_ldi (cpuOf vm) args = Res.map cpuOf (VM.mnemonic_ldi vm args) := by
  unfold CPU.mnemonic_ldi VM.mnemonic_ldi
  simp only [cpuOf_register, cpuOf_memory, CPU.mem_read, VM.read_memory]
  cases reg_1st args with
  | error e => rfl
  | ok r0 =>
    cases sign_extend (args &&& 0x1ff) 9 <;> simp [Res.map, cpuOf]

theorem map_mnemonic_ld (vm : VM) (args : Nat) :
    CPU.mnemonic_ld (cpuOf vm) args = Res.map cpuOf (VM.mnemonic_ld vm args) := by
  unfold CPU.mnemonic_ld VM.mnemonic_ld
  simp only [cpuOf_register, cpuOf_memory, CPU.mem_read, VM.read_memory]
  cases reg_1st args with
  | error e => rfl
  | ok r0 =>
    cases sign_extend (args &&& 0x01ff) 9 <;> simp [Res.map, cpuOf]

theorem map_mnemonic_st (vm : VM) (args : Nat) :
    CPU.mnemonic_st (cpuOf vm) args = Res.map cpuOf (VM.mnemonic_st vm args) := by
  unfold CPU.mnemonic_st VM.mnemonic_st
  simp only [cpuOf_register, cpuOf_memory]
  cases reg_1st args with
  | error e => rfl
  | ok r0 =>
    cases sign_extend (args &&& 0x01ff) 9 <;>
      simp [Res.map, cpuOf, CPU.mem_write, VM.write_memory]

theorem map_mnemonic_res (vm : VM) (args : Nat) :
    CPU.mnemonic_res (cpuOf vm) args = Res.map cpuOf (VM.mnemonic_res vm args) := by
  rfl

theorem map_mnemonic_jsr (vm : VM) (args : Nat) :
    CPU.mnemonic_jsr (cpuOf vm) args = Res.map cpuOf (VM.mnemonic_jsr vm args) := by
  unfold CPU.mnemonic_jsr VM.mnemonic_jsr
  simp only [cpuOf_register, cpuOf_memory]
  by_cases h11 : bit args 11 = 1
  · cases sign_extend (args &&& 0x07ff) 11 <;> simp [h11, Res.map, cpuOf]
  · cases reg_2nd args <;> simp [h11, Res.map, cpuOf]

theorem map_mnemonic_ldr (vm : VM) (args : Nat) :
    CPU.mnemonic_ldr (cpuOf vm) args = Res.map cpuOf (VM.mnemonic_ldr vm args) := by
  unfold CPU.mnemonic_ldr VM.mnemonic_ldr
  simp only [cpuOf_register, cpuOf_memory, CPU.mem_read, VM.read_memory]
  cases reg_1st args with
  | error e => rfl
  | ok r0 =>
    cases reg_2nd args with
    | error e => rfl
    | ok r1 =>
      cases sign_extend (args &&& 0x3f) 6 <;> simp [Res.map, cpuOf]

theorem map_mnemonic_str (vm : VM) (args : Nat) :
    CPU.mnemonic_str (cpuOf vm) args = Res.map cpuOf (VM.mnemonic_str vm args) := by
  unfold CPU.mnemonic_str VM.mnemonic_str
  simp only [cpuOf_register, cpuOf_memory]
  cases reg_1st args with
  | error e => rfl
  | ok r0 =>
    cases reg_2nd args with
    | error e => rfl
    | ok r1 =>
      cases sign_extend (args &&& 0x01ff) 9 <;>
        simp [Res.map, cpuOf, CPU.mem_write, VM.write_memory]

theorem map_mnemonic_rti (vm : VM) (args : Nat) :
    CPU.mnemonic_rti (cpuOf vm) args = Res.map cpuOf (VM.mnemonic_rti vm args) := by
  unfold CPU.mnemonic_rti VM.mnemonic_rti
  simp only [cpuOf_register, cpuOf_memory, CPU.mem_read, VM.read_memory]
  cases vm.register.get_mode with
  | error e => rfl
  | ok m =>
    cases m with
    | User => simp [Res.map, cpuOf, VM.abort]
    | Privilege =>
      cases vm.register.read_incr R.R6 with
      | none => simp [Res.map]
      | some p =>
        obtain ⟨addr, reg2⟩ := p
        simp only []
        cases (reg2.write R.PC (vm.memory addr)).read_incr R.R6 <;>
          simp [Res.map, cpuOf]

theorem map_mnemonic_not (vm : VM) (args : Nat) :
    CPU.mnemonic_not (cpuOf vm) args = Res.map cpuOf (VM.mnemonic_not vm args) := by
  unfold CPU.mnemonic_not VM.mnemonic_not
  simp only [cpuOf_register, cpuOf_memory]
  cases reg_1st args with
  | error e => rfl
  | ok r0 =>
    cases reg_2nd args <;> simp [Res.map, cpuOf]

theorem map_mnemonic_sti (vm : VM) (args : Nat) :
    CPU.mnemonic_sti (cpuOf vm) args = Res.map cpuOf (VM.mnemonic_sti vm args) := by
  unfold CPU.mnemonic_sti VM.mnemonic_sti
  simp only [cpuOf_register, cpuOf_memory, CPU.mem_read, VM.read_memory]
  cases reg_1st args with
  | error e => rfl
  | ok r0 =>
    cases sign_extend (args &&& 0x1ff) 9 <;>
      simp [Res.map, cpuOf, CPU.mem_write, VM.write_memory]

theorem map_mnemonic_jmp (vm : VM) (args : Nat) :
    CPU.mnemonic_jmp (cpuOf vm) args = Res.map cpuOf (VM.mnemonic_jmp vm args) := by
  unfold CPU.mnemonic_jmp VM.mnemonic_jmp
  simp only [cpuOf_register, cpuOf_memory]
  cases reg_2nd args <;> simp [Res.map, cpuOf]

theorem map_mnemonic_lea (vm : VM) (args : Nat) :
    CPU.mnemonic_lea (cpuOf vm) args = Res.map cpuOf (VM.mnemonic_lea vm args) := by
  unfold CPU.mnemonic_lea VM.mnemonic_lea
  simp only [cpuOf_register, cpuOf_memory]
  cases reg_1st args with
  | error e => rfl
  | ok r0 =>
    cases sign_extend (args &&& 0x01ff) 9 <;> simp [Res.map, cpuOf]

theorem map_mnemonic_trap (vm : VM) (args : Nat) :
    CPU.mnemonic_trap (cpuOf vm) args = Res.map cpuOf (VM.mnemonic_trap vm args) := by
  rfl

theorem map_tick (vm : VM) :
    CPU.tick (cpuOf vm) = Res.map cpuOf (VM.next vm) := by
  unfold CPU.tick VM.next
  simp only [cpuOf_register, cpuOf_memory, CPU.mem_read, VM.read_memory]
  cases vm.register.read_incr R.PC with
  | none => rfl
  | some p =>
    obtain ⟨boot_addr, reg2⟩ := p
    simp only []
    cases OpCode.tryFrom (vm.memory boot_addr >>> 12) with
    | error e => rfl
    | ok opcode =>
      cases opcode with
      | BR => exact map_mnemonic_br { vm with register := reg2 } _
      | ADD => exact map_mnemonic_add { vm with register := reg2 } _
      | LD => exact map_mnemonic_ld { vm with register := reg2 } _
      | ST => exact map_mnemonic_st { vm with register := reg2 } _
      | JSR => exact map_mnemonic_jsr { vm with register := reg2 } _
      | AND => exact map_mnemonic_and { vm with register := reg2 } _
      | LDR => exact map_mnemonic_ldr { vm with register := reg2 } _
      | STR => exact map_mnemonic_str { vm with register := reg2 } _
      | RTI => exact map_mnemonic_rti { vm with register := reg2 } _
      | NOT => exact map_mnemonic_not { vm with register := reg2 } _
      | LDI => exact map_mnemonic_ldi { vm with register := reg2 } _
      | STI => exact map_mnemonic_sti { vm with register := reg2 } _
      | JMP => exact map_mnemonic_jmp { vm with register := reg2 } _
      | RES => exact map_mnemonic_res { vm with register := reg2 } _
      | LEA => exact map_mnemonic_lea { vm with register := reg2 } _
      | TRAP => exact map_mnemonic_trap { vm with register := reg2 } _

/-- Agreement of one VM step outcome and one CPU step outcome on the core
state: both panic, or both fail with the same error kind, or both
succeed, with equal register files and equal memories in either case. -/
def step_agrees : Res VM → Res CPU → Prop
  | .ok vm, .ok cpu => vm.register = cpu.register ∧ vm.memory = cpu.memory
  | .err e vm, .err e2 cpu => e = e2 ∧ vm.register = cpu.register ∧ vm.memory = cpu.memory
  | .panic, .panic => True
  | _, _ => False

theorem agrees_of_map (r : Res VM) : step_agrees r (Res.map cpuOf r) := by
  cases r <;> simp [step_agrees, Res.map, cpuOf]

/-- C10: starting from equal register files and equal memories, one
`VM::next` step and one `CPU::tick` step agree: both panic, or both fail
with the same error kind, or both succeed, and in every case they leave
equal register files and equal memories. -/
theorem C10_engines_agree (vm : VM) (cpu : CPU)
    (hr : vm.register = cpu.register) (hm : vm.memory = cpu.memory) :
    step_agrees (VM.next vm) (CPU.tick cpu) := by
  obtain ⟨creg, cmem⟩ := cpu
  simp only at hr hm
  subst hr
  subst hm
  rw [show (⟨vm.register, vm.memory⟩ : CPU) = cpuOf vm from rfl, map_tick]
  exact agrees_of_map _

/-- C10 witness: agreement evaluated at a concrete pair of states with
equal register files and memories. -/
theorem C10_witness :
    step_agrees (VM.next ⟨fun _ => 0, Register.new, true⟩)
      (CPU.tick ⟨Register.new, fun _ => 0⟩) :=
  C10_engines_agree ⟨fun _ => 0, Register.new, true⟩ ⟨Register.new, fun _ => 0⟩ rfl rfl

end LC3
